import Mathlib

/-!
Verification of the warranty-dashboard aggregation pipeline.

This file is a shallow embedding of the data-aggregation and export logic of
the repository's two sources, `src/app.py` and `src/main.py`.  Pandas tables
are modelled as Lean lists of typed rows; monetary amounts are rationals
(the float arithmetic of the original is abstracted to exact arithmetic, and
the `pd.to_numeric(...).fillna(0)` coercion is assumed to have happened at
the parsing boundary, so numeric fields are plain `ℚ` values).  A summary
table is a list of pairs `(division, numeric cells)`.

String primitives mirror the Python string operations used by the code
(`str.strip`, `str.upper`, slicing `[:3]`, `startswith`) at the level of
character lists, restricted to the ASCII data the ledgers contain.
-/

/-- Python `str.upper` (ASCII case mapping, as used on arbitration ids). -/
def strUpper (s : String) : String := ⟨s.data.map Char.toUpper⟩

/-- Python `str.strip`: drop leading and trailing whitespace. -/
def strTrim (s : String) : String :=
  ⟨((s.data.dropWhile Char.isWhitespace).reverse.dropWhile Char.isWhitespace).reverse⟩

/-- Python slicing `s[:n]` by code points. -/
def strTake (s : String) (n : Nat) : String := ⟨s.data.take n⟩

/-- Python `s.startswith(pat)`. -/
def strStartsWith (s pat : String) : Bool := pat.data.isPrefixOf s.data

/-- Code-point lexicographic comparison, Python's `<` on strings. -/
def charListLt : List Char → List Char → Bool
  | [], [] => false
  | [], _ :: _ => true
  | _ :: _, [] => false
  | a :: as, b :: bs =>
    if a.val < b.val then true
    else if b.val < a.val then false
    else charListLt as bs

/-- Python `<` on strings. -/
def strLt (a b : String) : Bool := charListLt a.data b.data

/-- Insertion step of an ascending insertion sort on strings. -/
def insertStr (a : String) : List String → List String
  | [] => [a]
  | b :: t => if strLt a b then a :: b :: t else b :: insertStr a t

/-- Ascending insertion sort on strings, Python's `sorted`. -/
def sortStr : List String → List String
  | [] => []
  | a :: t => insertStr a (sortStr t)

/-- Duplicate removal on strings (the result has each string once; since the
result of `sortedDedup` is always sorted afterwards, keeping the last
occurrence rather than the first is immaterial). -/
def dedupStr : List String → List String
  | [] => []
  | a :: t => if a ∈ t then dedupStr t else a :: dedupStr t

/-- Python `sorted(xs.unique())`: the ascending list of distinct strings. -/
def sortedDedup (l : List String) : List String := sortStr (dedupStr l)

/-! ### Generic list lemmas used throughout -/

/-- Summing a filtered projection equals summing the projection guarded by
the filter predicate (pandas boolean-mask sum vs per-row conditional sum). -/
lemma sum_filter_map {α : Type} (p : α → Bool) (f : α → ℚ) :
    ∀ l : List α, ((l.filter p).map f).sum = (l.map fun a => if p a then f a else 0).sum := by
  intro l
  induction l with
  | nil => rfl
  | cons a t ih => by_cases h : p a <;> simp [List.filter_cons, h, ih]

lemma getD_append_singleton (l : List ℚ) (x : ℚ) : (l ++ [x]).getD l.length 0 = x := by
  simp [List.getD]

lemma getD_append_left (l : List ℚ) (x : ℚ) (i : Nat) (h : i < l.length) :
    (l ++ [x]).getD i 0 = l.getD i 0 := by
  rw [List.getD_eq_getElem _ _ (by simp; omega), List.getD_eq_getElem _ _ h]
  exact List.getElem_append_left h

lemma take_append_singleton (l : List ℚ) (x : ℚ) : (l ++ [x]).take l.length = l := by
  simp [List.take_left]

lemma getD_range_map (n : Nat) (g : Nat → ℚ) (i : Nat) (h : i < n) :
    ((List.range n).map g).getD i 0 = g i := by
  rw [List.getD_eq_getElem _ _ (by simpa using h)]
  simp

/-! ### The warranty ledger (`Warranty Debit.xlsx`)

One row of the primary ledger, after the numeric coercion
`pd.to_numeric(..., errors='coerce').fillna(0)` performed by
`process_warranty_data` (app.py 124-128, main.py 398-401).  The raw
`Claim arbitration ID` cell is `none` when the spreadsheet cell is missing.
-/

structure LedgerRow where
  dealerLocation : String
  fiscalMonth : String
  creditNoteAmount : ℚ
  debitNoteAmount : ℚ
  claimArbitrationId : Option String
deriving DecidableEq

/-- The dealer-location to division-code lookup of `process_warranty_data`
(app.py 111-122, main.py 385-396), with the `.fillna(df['Dealer Location'])`
pass-through for unmapped locations. -/
def dealer_mapping (loc : String) : String :=
  if loc = "AMRAVATI" then "AMT"
  else if loc = "CHAUFULA_SZZ" then "CHA"
  else if loc = "CHIKHALI" then "CHI"
  else if loc = "KOLHAPUR_WS" then "KOL"
  else if loc = "NAGPUR_KAMPTHEE ROAD" then "HO"
  else if loc = "NAGPUR_WARDHAMAN NGR" then "CITY"
  else if loc = "SHIKRAPUR_SZS" then "SHI"
  else if loc = "WAGHOLI" then "WAG"
  else if loc = "YAVATMAL" then "YAT"
  else if loc = "NAGPUR_WARDHAMAN NGR_CQ" then "CQ"
  else loc

/-- `df['Dealer_Code']` (app.py 131, main.py 408). -/
def dealer_code (r : LedgerRow) : String := dealer_mapping r.dealerLocation

/-- `df['Month'] = df['Fiscal Month'].astype(str).str.strip().str[:3]`
(app.py 132, main.py 411). -/
def row_month (r : LedgerRow) : String := strTake (strTrim r.fiscalMonth) 3

/-- The cleaning pass
`df['Claim arbitration ID'].astype(str).replace('nan','').replace('',np.nan)`
(app.py 133, main.py 414): a missing cell stringifies to `"nan"`, the exact
strings `"nan"` and `""` become missing again, anything else is kept. -/
def cleanArbId : Option String → Option String
  | none => none
  | some s => if s = "nan" then none else if s = "" then none else some s

/-- `is_arbitration` of app.py 179-182: trimmed-and-uppercased value starts
with `"ARB"`, is not `"NAN"` and is not empty. -/
def is_arbitration : Option String → Bool
  | none => false
  | some s =>
    strStartsWith (strUpper (strTrim s)) "ARB" &&
      strUpper (strTrim s) != "NAN" && strUpper (strTrim s) != ""

/-- `is_arbitration` of main.py 470-473 (the revision without the final
`and value != ''` conjunct). -/
def is_arbitration_main : Option String → Bool
  | none => false
  | some s =>
    strStartsWith (strUpper (strTrim s)) "ARB" && strUpper (strTrim s) != "NAN"

/-- The nine fiscal months of the aggregation calendar
(app.py 136, main.py 418). -/
def months : List String := ["Apr", "May", "Jun", "Jul", "Aug", "Sep", "Oct", "Nov", "Dec"]

/-- `dealers = sorted(df['Dealer_Code'].unique())` (app.py 135, main.py 417). -/
def dealers (df : List LedgerRow) : List String := sortedDedup (df.map dealer_code)

/-- Credit summary cell for one division and month: the month-filtered
`groupby('Dealer_Code')['Credit Note Amount'].sum()` merged into the table,
with absent groups filled to 0 (app.py 139-149); the merge-plus-`fillna(0)`
yields exactly the sum over this division's rows of that month. -/
def creditCell (df : List LedgerRow) (d mo : String) : ℚ :=
  ((df.filter fun r => dealer_code r == d && row_month r == mo).map (·.creditNoteAmount)).sum

/-- Debit summary cell, as `creditCell` with `Debit Note Amount`
(app.py 158-168). -/
def debitCell (df : List LedgerRow) (d mo : String) : ℚ :=
  ((df.filter fun r => dealer_code r == d && row_month r == mo).map (·.debitNoteAmount)).sum

/-- `Total Credit` column: row-wise sum of the nine month columns
(app.py 150-151). -/
def totalCreditOf (df : List LedgerRow) (d : String) : ℚ :=
  (months.map (creditCell df d)).sum

/-- `Total Debit` column (app.py 169-170, main.py 457-458); also the value
joined into the arbitration table for each division row. -/
def totalDebitOf (df : List LedgerRow) (d : String) : ℚ :=
  (months.map (debitCell df d)).sum

/-- Arbitration summary cell of app.py 184-189: among this month's rows,
keep those whose cleaned id satisfies `is_arbitration` and sum their
`Debit Note Amount` by division. -/
def arbCell (df : List LedgerRow) (d mo : String) : ℚ :=
  ((df.filter fun r =>
      dealer_code r == d && row_month r == mo &&
        is_arbitration (cleanArbId r.claimArbitrationId)).map (·.debitNoteAmount)).sum

/-- Arbitration summary cell of main.py 475-485: per-row amount
`Debit Note Amount if Is_ARB else 0`, summed by division over the month. -/
def arbCellMain (df : List LedgerRow) (d mo : String) : ℚ :=
  ((df.filter fun r => dealer_code r == d && row_month r == mo).map fun r =>
    if is_arbitration_main (cleanArbId r.claimArbitrationId) then r.debitNoteAmount else 0).sum

/-- `Pending Claim Arbitration` of app.py 195-198:
`(Total Debit - sum of the nine Claim Arbitration columns)` clipped by
`.apply(lambda x: max(0, x))`. -/
def pendingClaimArbitration (df : List LedgerRow) (d : String) : ℚ :=
  max 0 (totalDebitOf df d - (months.map (arbCell df d)).sum)

/-- `Pending Claim Arbitration` of main.py 496-498: the same difference
without any clipping. -/
def pendingClaimArbitrationMain (df : List LedgerRow) (d : String) : ℚ :=
  totalDebitOf df d - (months.map (arbCellMain df d)).sum

/-! ### Generic summary-table construction

Every aggregator builds the same shape: one row per division, then a
`"Grand Total"` row whose numeric cells are the column-wise sums of the
division rows (`grand_total[col] = summary_df[col].sum()` just before the
final `pd.concat`, e.g. app.py 152-155, 171-174, 201-204, 245-251, 346-350,
403-407).
-/

/-- A summary table: division name plus the row's numeric cells. -/
abbrev Sheet := List (String × List ℚ)

/-- Column-wise sum over a list of rows (missing cells read as 0, matching
the NaN-to-0 rendering of the serialisation layer). -/
def colSum (rows : List (List ℚ)) (i : Nat) : ℚ := (rows.map fun cs => cs.getD i 0).sum

/-- The grand-total cells: one column sum per numeric column. -/
def gtCells (n : Nat) (rows : List (List ℚ)) : List ℚ := (List.range n).map (colSum rows)

/-- Division rows followed by the appended `"Grand Total"` row. -/
def buildTable (n : Nat) (divs : List String) (f : String → List ℚ) : Sheet :=
  (divs.map fun d => (d, f d)) ++ [("Grand Total", gtCells n (divs.map f))]

/-- Credit summary table of `process_warranty_data` (app.py 138-155). -/
def credit_table (df : List LedgerRow) : Sheet :=
  buildTable 10 (dealers df) fun d => months.map (creditCell df d) ++ [totalCreditOf df d]

/-- Debit summary table of `process_warranty_data` (app.py 157-174). -/
def debit_table (df : List LedgerRow) : Sheet :=
  buildTable 10 (dealers df) fun d => months.map (debitCell df d) ++ [totalDebitOf df d]

/-- Arbitration summary table of app.py 176-204: nine monthly cells plus the
clipped `Pending Claim Arbitration`. -/
def arbitration_table_app (df : List LedgerRow) : Sheet :=
  buildTable 10 (dealers df) fun d =>
    months.map (arbCell df d) ++ [pendingClaimArbitration df d]

/-- Arbitration summary table of main.py 466-507: nine monthly cells plus
the unclipped `Pending Claim Arbitration`. -/
def arbitration_table_main (df : List LedgerRow) : Sheet :=
  buildTable 10 (dealers df) fun d =>
    months.map (arbCellMain df d) ++ [pendingClaimArbitrationMain df d]

/-! ### Grand-total invariant -/

/-- The grand-total invariant of a summary table: the table ends with a
`"Grand Total"` row, and each of that row's numeric cells is the column-wise
sum over all earlier rows. -/
def gtInvariant (t : Sheet) : Prop :=
  ∃ gt, t.getLast? = some gt ∧ gt.1 = "Grand Total" ∧
    ∀ i, i < gt.2.length → gt.2.getD i 0 = colSum (t.dropLast.map Prod.snd) i

lemma map_pair_snd (divs : List String) (f : String → List ℚ) :
    (divs.map fun d => (d, f d)).map Prod.snd = divs.map f := by
  simp [List.map_map]

lemma buildTable_dropLast (n : Nat) (divs : List String) (f : String → List ℚ) :
    (buildTable n divs f).dropLast = divs.map fun d => (d, f d) := by
  simp [buildTable]

lemma buildTable_getLast (n : Nat) (divs : List String) (f : String → List ℚ) :
    (buildTable n divs f).getLast? = some ("Grand Total", gtCells n (divs.map f)) := by
  simp [buildTable, List.getLast?_concat]

lemma buildTable_gtInvariant (n : Nat) (divs : List String) (f : String → List ℚ) :
    gtInvariant (buildTable n divs f) := by
  refine ⟨("Grand Total", gtCells n (divs.map f)), buildTable_getLast n divs f, rfl, ?_⟩
  intro i hi
  have hn : i < n := by simpa [gtCells] using hi
  rw [buildTable_dropLast, map_pair_snd]
  exact getD_range_map n (colSum (divs.map f)) i hn

/-! ### Current-month pending claims (`Pending Warranty Claim Details.xlsx`)

`process_current_month_warranty` (app.py 214-259, main.py 293-367): the
`Division` column is stringified and trimmed, rows with an empty or `"nan"`
division are dropped, and each division's summary counts the rows whose
`Pending Claims Spares` / `Pending Claims Labour` cell is non-missing.
-/

structure PendingRow where
  division : Option String
  pendingClaimsSpares : Option ℚ
  pendingClaimsLabour : Option ℚ
deriving DecidableEq

/-- `astype(str)` on a possibly-missing cell: a missing value stringifies to
`"nan"`. -/
def strOfCell : Option String → String
  | none => "nan"
  | some s => s

/-- A pending-claims row after the division column has been cleaned. -/
structure PendingRowC where
  division : String
  pendingClaimsSpares : Option ℚ
  pendingClaimsLabour : Option ℚ
deriving DecidableEq

/-- The cleaning pass of app.py 231-232 / main.py 318-321: trim the
stringified division, then drop empty and `"nan"` divisions. -/
def cleanedPending (src : List PendingRow) : List PendingRowC :=
  (src.map fun r =>
    PendingRowC.mk (strTrim (strOfCell r.division)) r.pendingClaimsSpares r.pendingClaimsLabour).filter
    fun r => r.division != "" && r.division != "nan"

/-- `sorted(df['Division'].unique())` over the cleaned rows (app.py 235). -/
def pendingDivisions (src : List PendingRow) : List String :=
  sortedDedup ((cleanedPending src).map (·.division))

/-- `div_data['Pending Claims Spares'].notna().sum()` (app.py 239,
main.py 330): the number of this division's rows with a non-missing cell. -/
def spares_count (src : List PendingRow) (d : String) : Nat :=
  ((cleanedPending src).filter fun r => r.division == d && r.pendingClaimsSpares.isSome).length

/-- `div_data['Pending Claims Labour'].notna().sum()` (app.py 240,
main.py 333). -/
def labour_count (src : List PendingRow) (d : String) : Nat :=
  ((cleanedPending src).filter fun r => r.division == d && r.pendingClaimsLabour.isSome).length

/-- Current-month summary table (app.py 234-251, main.py 324-352): the two
counts plus their sum per division, then the grand-total row. -/
def current_month_table (src : List PendingRow) : Sheet :=
  buildTable 3 (pendingDivisions src) fun d =>
    [(spares_count src d : ℚ), (labour_count src d : ℚ),
      ((spares_count src d + labour_count src d : Nat) : ℚ)]

/-! ### Compensation claims (`Transit_Claims_Merged.xlsx`)

`process_compensation_claim` (app.py 261-360, main.py 165-291).  The
embedding fixes the full column schema (all required columns present) and
keeps the columns the summary derives from: `Division`, `Claim Amount`,
`Claim Approved Amt.`, `No. of Days` (the latter three already coerced by
`pd.to_numeric(...).fillna(0)`).  Presentation-only text and date columns
that no summary value depends on are not carried in the row type; the
detail-sheet column list is kept separately as `compensation_detail_columns`.
-/

structure CompRow where
  division : Option String
  claimAmount : ℚ
  claimApprovedAmt : ℚ
  noOfDays : ℚ
deriving DecidableEq

structure CompRowC where
  division : String
  claimAmount : ℚ
  claimApprovedAmt : ℚ
  noOfDays : ℚ
deriving DecidableEq

/-- Division cleaning of app.py 295-299 / main.py 202-205. -/
def cleanedComp (src : List CompRow) : List CompRowC :=
  (src.map fun r =>
    CompRowC.mk (strTrim (strOfCell r.division)) r.claimAmount r.claimApprovedAmt r.noOfDays).filter
    fun r => r.division != "" && r.division != "nan"

def compDivisions (src : List CompRow) : List String :=
  sortedDedup ((cleanedComp src).map (·.division))

def compRows (src : List CompRow) (d : String) : List CompRowC :=
  (cleanedComp src).filter fun r => r.division == d

/-- `'Total Claims': len(div_data)` (app.py 332, main.py 238). -/
def compCount (src : List CompRow) (d : String) : Nat := (compRows src d).length

/-- `'Total Claim Amount': div_data['Claim Amount'].sum()` (app.py 335). -/
def compClaimSum (src : List CompRow) (d : String) : ℚ :=
  ((compRows src d).map (·.claimAmount)).sum

/-- `'Total Approved Amount': div_data['Claim Approved Amt.'].sum()`
(app.py 338). -/
def compApprovedSum (src : List CompRow) (d : String) : ℚ :=
  ((compRows src d).map (·.claimApprovedAmt)).sum

/-- Arithmetic mean of a list of rationals, pandas `.mean()` (the fillna(0)
coercion has already put a numeric value in every cell). -/
def listMean (l : List ℚ) : ℚ := l.sum / l.length

/-- `'Avg No. of Days': div_data['No. of Days'].mean()` (app.py 341,
main.py 250). -/
def compAvgDays (src : List CompRow) (d : String) : ℚ :=
  listMean ((compRows src d).map (·.noOfDays))

def compCells (src : List CompRow) (d : String) : List ℚ :=
  [(compCount src d : ℚ), compClaimSum src d, compApprovedSum src d, compAvgDays src d]

/-- Compensation summary table of app.py 327-350: the grand-total loop sums
every numeric column, including `Avg No. of Days`. -/
def compensation_table_app (src : List CompRow) : Sheet :=
  buildTable 4 (compDivisions src) (compCells src)

/-- Compensation summary table of main.py 228-272: the grand-total row sums
`Total Claims`, `Total Claim Amount` and `Total Approved Amount`, but sets
`Avg No. of Days` to `summary_df['Avg No. of Days'].mean()` — the mean of
the per-division averages — (main.py 269-270), not their sum. -/
def compensation_table_main (src : List CompRow) : Sheet :=
  let divRows := (compDivisions src).map fun d => (d, compCells src d)
  divRows ++ [("Grand Total",
    [colSum (divRows.map Prod.snd) 0, colSum (divRows.map Prod.snd) 1,
      colSum (divRows.map Prod.snd) 2,
      listMean ((compDivisions src).map (compAvgDays src))])]

/-! ### PR-approval claims (`Pr_Approval_Claims_Merged.xlsx`)

`process_pr_approval` (app.py 362-415, main.py 58-163).  One row type
serves both revisions: app.py's summary uses the three numeric columns,
main.py's uses `App. Claim Amt from M&M` plus per-`Request Type` counts.
-/

structure PrRow where
  division : Option String
  requestType : Option String
  totalCostOfRepair : ℚ
  reqClaimAmt : ℚ
  appClaimAmt : ℚ
deriving DecidableEq

structure PrRowC where
  division : String
  requestType : Option String
  totalCostOfRepair : ℚ
  reqClaimAmt : ℚ
  appClaimAmt : ℚ
deriving DecidableEq

/-- Division cleaning of app.py 378-379 / main.py 95-99. -/
def cleanedPr (src : List PrRow) : List PrRowC :=
  (src.map fun r =>
    PrRowC.mk (strTrim (strOfCell r.division)) r.requestType r.totalCostOfRepair
      r.reqClaimAmt r.appClaimAmt).filter
    fun r => r.division != "" && r.division != "nan"

def prDivisions (src : List PrRow) : List String :=
  sortedDedup ((cleanedPr src).map (·.division))

def prRows (src : List PrRow) (d : String) : List PrRowC :=
  (cleanedPr src).filter fun r => r.division == d

/-- `'Total Requests': len(div_data)` (app.py 389, main.py 117). -/
def prCount (src : List PrRow) (d : String) : Nat := (prRows src d).length

/-- `'Total Cost of Repair'` sum (app.py 392). -/
def prCostSum (src : List PrRow) (d : String) : ℚ :=
  ((prRows src d).map (·.totalCostOfRepair)).sum

/-- `'Req. Claim Amt from M&M'` sum (app.py 395). -/
def prReqSum (src : List PrRow) (d : String) : ℚ :=
  ((prRows src d).map (·.reqClaimAmt)).sum

/-- `'Total Approved Amount'`: the `'App. Claim Amt from M&M'` sum
(app.py 398, main.py 121). -/
def prApprovedSum (src : List PrRow) (d : String) : ℚ :=
  ((prRows src d).map (·.appClaimAmt)).sum

/-- The distinct request-type strings appearing in the cleaned rows that are
non-missing and have a non-empty strip (main.py 124-128); each one yields a
`'{req_type} Count'` column of main.py's summary. -/
def request_types (src : List PrRow) : List String :=
  dedupStr (((cleanedPr src).filterMap (·.requestType)).filter fun t => strTrim t != "")

/-- `div_data['Request Type'].value_counts()` entry for one request type
(main.py 125): the number of this division's rows carrying exactly that
value.  A division without the type has no entry, rendered as 0. -/
def prTypeCount (src : List PrRow) (d t : String) : Nat :=
  ((prRows src d).filter fun r => r.requestType == some t).length

/-- PR-approval summary table of app.py 386-407. -/
def pr_approval_table_app (src : List PrRow) : Sheet :=
  buildTable 4 (prDivisions src) fun d =>
    [(prCount src d : ℚ), prCostSum src d, prReqSum src d, prApprovedSum src d]

/-- PR-approval summary table of main.py 107-143: `Total Requests`,
`Total Approved Amount`, then one count column per request type. -/
def pr_approval_table_main (src : List PrRow) : Sheet :=
  buildTable (2 + (request_types src).length) (prDivisions src) fun d =>
    [(prCount src d : ℚ), prApprovedSum src d] ++
      (request_types src).map fun t => (prTypeCount src d t : ℚ)

/-! ### Process entry points and startup

The four `process_*` routines each locate and parse their own source file;
a missing file or any exception during processing yields a tuple of `None`
(app.py 100-104 and 209-212, 218-220 and 256-259, 265-267 and 357-360,
366-368 and 412-415; identically main.py).  The file-loading outcome is
modelled as an `Option` input: `none` stands for "missing or malformed". -/

structure Sources where
  warranty : Option (List LedgerRow)
  pendingWarranty : Option (List PendingRow)
  compensation : Option (List CompRow)
  prApproval : Option (List PrRow)

/-- `process_warranty_data` (app.py 98-212): returns the credit, debit and
arbitration tables plus the retained preprocessed ledger, or four `None`. -/
def process_warranty_data :
    Option (List LedgerRow) → Option Sheet × Option Sheet × Option Sheet × Option (List LedgerRow)
  | none => (none, none, none, none)
  | some df => (some (credit_table df), some (debit_table df),
      some (arbitration_table_app df), some df)

/-- `process_current_month_warranty` (app.py 214-259). -/
def process_current_month_warranty :
    Option (List PendingRow) → Option Sheet × Option (List PendingRowC)
  | none => (none, none)
  | some src => (some (current_month_table src), some (cleanedPending src))

/-- `process_compensation_claim` (app.py 261-360). -/
def process_compensation_claim :
    Option (List CompRow) → Option Sheet × Option (List CompRowC)
  | none => (none, none)
  | some src => (some (compensation_table_app src), some (cleanedComp src))

/-- `process_pr_approval` (app.py 362-415). -/
def process_pr_approval :
    Option (List PrRow) → Option Sheet × Option (List PrRowC)
  | none => (none, none)
  | some src => (some (pr_approval_table_app src), some (cleanedPr src))

/-- The `WARRANTY_DATA` in-memory store (app.py 52-63). -/
structure WarrantyData where
  credit_df : Option Sheet
  debit_df : Option Sheet
  arbitration_df : Option Sheet
  source_df : Option (List LedgerRow)
  current_month_df : Option Sheet
  current_month_source_df : Option (List PendingRowC)
  compensation_df : Option Sheet
  compensation_source_df : Option (List CompRowC)
  pr_approval_df : Option Sheet
  pr_approval_source_df : Option (List PrRowC)

/-- The module-level startup pass of app.py 1434-1445: each routine is run
once on its own source and its results stored. -/
def startup (s : Sources) : WarrantyData :=
  let w := process_warranty_data s.warranty
  let cm := process_current_month_warranty s.pendingWarranty
  let co := process_compensation_claim s.compensation
  let pr := process_pr_approval s.prApproval
  ⟨w.1, w.2.1, w.2.2.1, w.2.2.2, cm.1, cm.2, co.1, co.2, pr.1, pr.2⟩

/-! ### Excel export

`export_to_excel` (app.py 1319-1415, main.py 1882-2283).  The workbook
styling is presentation; what is modelled is which summary rows end up on
the Summary sheet and which error is raised. -/

inductive ExportError where
  | noData (exportType : String)
  | invalidType
deriving DecidableEq

/-- Table selection of app.py 1331-1343: five named types, any other string
falls through to the arbitration table. -/
def select_table_app (wd : WarrantyData) (exportType : String) : Option Sheet :=
  if exportType == "currentmonth" then wd.current_month_df
  else if exportType == "compensation" then wd.compensation_df
  else if exportType == "pr_approval" then wd.pr_approval_df
  else if exportType == "credit" then wd.credit_df
  else if exportType == "debit" then wd.debit_df
  else wd.arbitration_df

/-- Table selection of main.py 1900-1917 for the six accepted types
(`currentmonth`, `compensation` and `pr_approval` dispatch to their own
export functions, which read the same stored tables). -/
def select_table_main (wd : WarrantyData) (exportType : String) : Option Sheet :=
  if exportType == "currentmonth" then wd.current_month_df
  else if exportType == "compensation" then wd.compensation_df
  else if exportType == "pr_approval" then wd.pr_approval_df
  else if exportType == "credit" then wd.credit_df
  else if exportType == "debit" then wd.debit_df
  else wd.arbitration_df

/-- Division filtering of the Summary sheet (app.py 1349-1354,
main.py 1940-1947, and identically in main.py 2295-2301, 2497-2503,
2644-2650): a specific division keeps its rows and appends every
`"Grand Total"` row; `"All"` and the literal `"Grand Total"` copy the whole
table. -/
def filter_summary (t : Sheet) (division : String) : Sheet :=
  if division != "All" && division != "Grand Total" then
    t.filter (fun r => r.1 == division) ++ t.filter (fun r => r.1 == "Grand Total")
  else t

/-- app.py's `export_to_excel`: select the table, raise the no-data error
when it is absent or empty (app.py 1345-1346), otherwise build the Summary
sheet from the filtered rows. -/
def export_to_excel (wd : WarrantyData) (division exportType : String) :
    Except ExportError Sheet :=
  match select_table_app wd exportType with
  | none => .error (.noData exportType)
  | some t => if t.isEmpty then .error (.noData exportType) else .ok (filter_summary t division)

/-- The accepted export types of main.py 1896. -/
def valid_export_types : List String :=
  ["credit", "debit", "arbitration", "currentmonth", "compensation", "pr_approval"]

/-- main.py's `export_to_excel`: reject unknown types with a 400
(main.py 1896-1897), then the same absent-or-empty check (main.py 1919-1920
and 2291-2292, 2493-2494, 2640-2641 in the dispatched exporters). -/
def export_to_excel_main (wd : WarrantyData) (division exportType : String) :
    Except ExportError Sheet :=
  if !(valid_export_types.contains exportType) then .error .invalidType
  else
    match select_table_main wd exportType with
    | none => .error (.noData exportType)
    | some t => if t.isEmpty then .error (.noData exportType) else .ok (filter_summary t division)

/-- The columns of the compensation detail sheet: exactly the retained
source columns of `process_compensation_claim` (main.py 181-185); the detail
sheet of `export_compensation_claim` (main.py 2556-2611) writes these
columns unchanged and appends no derived column. -/
def compensation_detail_columns : List String :=
  ["Division", "RO Id.", "Registration No.", "RO Date", "RO Bill Date",
    "Chassis No.", "Model Group", "Claim Amount", "Request Status",
    "Claim Approved Amt.", "No. of Days"]

/-- The compensation detail sheet of main.py 2556-2611: header row and the
division-filtered retained source rows, with no derived column added. -/
def export_compensation_detail (src : List CompRowC) (division : String) :
    List String × List CompRowC :=
  (compensation_detail_columns,
    if division != "All" && division != "Grand Total" then
      src.filter fun r => r.division == division
    else src)

/-! ### Helper lemmas for the arbitration predicate -/

lemma strStartsWith_ARB_ne_empty (u : String) (h : strStartsWith u "ARB" = true) : u ≠ "" := by
  intro he
  subst he
  exact absurd h (by decide)

lemma is_arbitration_iff (v : Option String) :
    is_arbitration (cleanArbId v) = true ↔
      ∃ s, v = some s ∧ strStartsWith (strUpper (strTrim s)) "ARB" = true ∧
        strUpper (strTrim s) ≠ "" ∧ strUpper (strTrim s) ≠ "NAN" := by
  cases v with
  | none => simp [cleanArbId, is_arbitration]
  | some s =>
    by_cases h1 : s = "nan"
    · subst h1
      have hs : strStartsWith (strUpper (strTrim "nan")) "ARB" = false := by decide
      simp [cleanArbId, is_arbitration, hs]
    · by_cases h2 : s = ""
      · subst h2
        have hs : strStartsWith (strUpper (strTrim "")) "ARB" = false := by decide
        simp [cleanArbId, is_arbitration, hs]
      · simp only [cleanArbId, h1, h2, if_false, if_neg]
        simp [is_arbitration, Bool.and_eq_true, bne_iff_ne]
        tauto

lemma is_arbitration_main_eq (v : Option String) :
    is_arbitration_main (cleanArbId v) = is_arbitration (cleanArbId v) := by
  rcases hv : cleanArbId v with _ | s
  · rfl
  · cases hA : strStartsWith (strUpper (strTrim s)) "ARB"
    · simp [is_arbitration, is_arbitration_main, hA]
    · have hb : (strUpper (strTrim s) != "") = true :=
        bne_iff_ne.mpr (strStartsWith_ARB_ne_empty _ hA)
      simp [is_arbitration, is_arbitration_main, hA, hb]

lemma arbCell_ite (df : List LedgerRow) (d mo : String) :
    arbCell df d mo = (df.map fun r =>
      if dealer_code r == d && row_month r == mo then
        (if is_arbitration (cleanArbId r.claimArbitrationId) then r.debitNoteAmount else 0)
      else 0).sum := by
  rw [arbCell, sum_filter_map]
  congr 1
  apply List.map_congr_left
  intro r _
  cases hA : (dealer_code r == d && row_month r == mo) <;>
    cases hB : is_arbitration (cleanArbId r.claimArbitrationId) <;>
      simp [hA, hB]

lemma arbCellMain_eq (df : List LedgerRow) (d mo : String) :
    arbCellMain df d mo = arbCell df d mo := by
  rw [arbCellMain, sum_filter_map, arbCell_ite]
  congr 1
  apply List.map_congr_left
  intro r _
  simp only [is_arbitration_main_eq]

/-! ### Claim C3 -/

/-- C3: a ledger row is counted as an arbitration claim iff its cleaned
claim-arbitration identifier, once trimmed and uppercased, starts with
`"ARB"` (and is then automatically non-empty and distinct from `"NAN"`);
both revisions' predicates agree; such a row contributes its debit-note
amount to its division/month cell of the `Claim Arbitration` column and
every other row contributes 0, in both revisions' formulations. -/
theorem arbitration_recognition (v : Option String) (df : List LedgerRow) (d mo : String) :
    (is_arbitration (cleanArbId v) = true ↔
      ∃ s, v = some s ∧ strStartsWith (strUpper (strTrim s)) "ARB" = true ∧
        strUpper (strTrim s) ≠ "" ∧ strUpper (strTrim s) ≠ "NAN") ∧
    is_arbitration_main (cleanArbId v) = is_arbitration (cleanArbId v) ∧
    arbCell df d mo = (df.map fun r =>
      if dealer_code r == d && row_month r == mo then
        (if is_arbitration (cleanArbId r.claimArbitrationId) then r.debitNoteAmount else 0)
      else 0).sum ∧
    arbCellMain df d mo = arbCell df d mo :=
  ⟨is_arbitration_iff v, is_arbitration_main_eq v, arbCell_ite df d mo, arbCellMain_eq df d mo⟩

/-- A two-row scenario ledger: an `ARB1023` claim with debit 200 and a
`"-"` row with debit 75, both of division `AMT` and month `Apr`. -/
def scenarioLedger : List LedgerRow :=
  [⟨"AMRAVATI", "Apr-25", 0, 200, some "ARB1023"⟩,
    ⟨"AMRAVATI", "Apr-25", 0, 75, some "-"⟩]

/-- C3 witness: `ARB1023` is recognised, `"-"` and a missing id are not,
and the scenario's `Claim Arbitration Apr` cell for `AMT` is exactly 200. -/
theorem arbitration_recognition_witness :
    is_arbitration (cleanArbId (some "ARB1023")) = true ∧
    is_arbitration (cleanArbId (some "-")) = false ∧
    is_arbitration (cleanArbId none) = false ∧
    arbCell scenarioLedger "AMT" "Apr" = 200 := by
  refine ⟨?_, by decide, by decide, ?_⟩
  · exact (arbitration_recognition (some "ARB1023") [] "" "").1.mpr
      ⟨"ARB1023", rfl, by decide, by decide, by decide⟩
  · rw [(arbitration_recognition (some "ARB1023") scenarioLedger "AMT" "Apr").2.2.1]
    have h1 : is_arbitration (cleanArbId (some "ARB1023")) = true := by decide
    have h2 : is_arbitration (cleanArbId (some "-")) = false := by decide
    have h3 : row_month ⟨"AMRAVATI", "Apr-25", 0, 200, some "ARB1023"⟩ = "Apr" := by decide
    have h4 : row_month ⟨"AMRAVATI", "Apr-25", 0, 75, some "-"⟩ = "Apr" := by decide
    simp [scenarioLedger, dealer_code, dealer_mapping, h1, h2, h3, h4]

/-! ### Claim C1 -/

lemma mem_buildTable_dropLast {n : Nat} {divs : List String} {f : String → List ℚ}
    {r : String × List ℚ} (h : r ∈ (buildTable n divs f).dropLast) :
    ∃ d ∈ divs, r = (d, f d) := by
  rw [buildTable_dropLast] at h
  obtain ⟨d, hd, hr⟩ := List.mem_map.mp h
  exact ⟨d, hd, hr.symm⟩

/-- C1 (amended): in app.py's arbitration table every division row's
`Pending Claim Arbitration` equals `max 0 (Total Debit - sum of its nine
monthly Claim Arbitration cells)` and is never negative; in main.py's
revision it is the same difference without the `max 0` clip.  The
hypothesis records the modelling boundary that no dealer code collides with
the `"Grand Total"` sentinel (otherwise the pandas left-merge of the joined
`Total Debit` column would produce a NaN, which the exact embedding does
not represent). -/
theorem arbitration_pending_amended (df : List LedgerRow)
    (_hGT : "Grand Total" ∉ dealers df) :
    (∀ r ∈ (arbitration_table_app df).dropLast,
      r.2.getD 9 0 = max 0 (totalDebitOf df r.1 - (r.2.take 9).sum) ∧ 0 ≤ r.2.getD 9 0) ∧
    (∀ r ∈ (arbitration_table_main df).dropLast,
      r.2.getD 9 0 = totalDebitOf df r.1 - (r.2.take 9).sum) := by
  constructor
  · intro r hr
    obtain ⟨d, _, rfl⟩ := mem_buildTable_dropLast hr
    have hlen : (months.map (arbCell df d)).length = 9 := by simp [months]
    constructor
    · rw [show (9 : Nat) = (months.map (arbCell df d)).length from hlen.symm,
        getD_append_singleton, take_append_singleton]
      rfl
    · rw [show (9 : Nat) = (months.map (arbCell df d)).length from hlen.symm,
        getD_append_singleton]
      exact le_max_left 0 _
  · intro r hr
    obtain ⟨d, _, rfl⟩ := mem_buildTable_dropLast hr
    have hlen : (months.map (arbCellMain df d)).length = 9 := by simp [months]
    rw [show (9 : Nat) = (months.map (arbCellMain df d)).length from hlen.symm,
      getD_append_singleton, take_append_singleton]
    rfl

/-- A ledger on which the two revisions disagree: division `AMT` has an
arbitration claim of 100 in April and a debit reversal of -50 on a
non-arbitration row, so `Total Debit = 50` while the claimed arbitration
is 100. -/
def negLedger : List LedgerRow :=
  [⟨"AMRAVATI", "Apr-25", 0, 100, some "ARB77"⟩,
    ⟨"AMRAVATI", "Apr-25", 0, -50, some "-"⟩]

/-- C1 witness: the amended statement instantiated on `negLedger`, with the
sentinel-collision hypothesis discharged by computation. -/
theorem arbitration_pending_amended_witness :
    ("Grand Total" ∉ dealers negLedger) ∧
    ((∀ r ∈ (arbitration_table_app negLedger).dropLast,
      r.2.getD 9 0 = max 0 (totalDebitOf negLedger r.1 - (r.2.take 9).sum) ∧
        0 ≤ r.2.getD 9 0) ∧
     (∀ r ∈ (arbitration_table_main negLedger).dropLast,
      r.2.getD 9 0 = totalDebitOf negLedger r.1 - (r.2.take 9).sum)) :=
  ⟨by decide, arbitration_pending_amended negLedger (by decide)⟩

/-- C1 counterexample: on `negLedger`, main.py's arbitration table gives the
`AMT` row a `Pending Claim Arbitration` of -50, which is negative and
differs from the claimed `max 0 (Total Debit - claimed arbitration) = 0`. -/
theorem arbitration_pending_counterexample :
    ((arbitration_table_main negLedger).getD 0 ("", [])).1 = "AMT" ∧
    ((arbitration_table_main negLedger).getD 0 ("", [])).2.getD 9 0 = -50 ∧
    ¬ (0 : ℚ) ≤ -50 ∧
    max 0 (totalDebitOf negLedger "AMT" -
      (months.map (arbCellMain negLedger "AMT")).sum) = 0 := by
  have harb1 : is_arbitration_main (cleanArbId (some "ARB77")) = true := by decide
  have harb2 : is_arbitration_main (cleanArbId (some "-")) = false := by decide
  have h1 : totalDebitOf negLedger "AMT" = 50 := by
    simp [totalDebitOf, months, debitCell, negLedger, dealer_code, dealer_mapping,
      row_month, strTake, strTrim]
    norm_num
  have h2 : (months.map (arbCellMain negLedger "AMT")).sum = 100 := by
    simp [months, arbCellMain, negLedger, dealer_code, dealer_mapping,
      row_month, strTake, strTrim, harb1, harb2]
  have h3 : pendingClaimArbitrationMain negLedger "AMT" = -50 := by
    rw [pendingClaimArbitrationMain, h1, h2]
    norm_num
  have hd : dealers negLedger = ["AMT"] := by decide
  have htab : (arbitration_table_main negLedger).getD 0 ("", []) =
      ("AMT", months.map (arbCellMain negLedger "AMT") ++
        [pendingClaimArbitrationMain negLedger "AMT"]) := by
    simp [arbitration_table_main, buildTable, hd]
  have hlen : (months.map (arbCellMain negLedger "AMT")).length = 9 := by simp [months]
  refine ⟨by rw [htab], ?_, by norm_num, by rw [h1, h2]; norm_num⟩
  rw [htab]
  rw [show (9 : Nat) = (months.map (arbCellMain negLedger "AMT")).length from hlen.symm]
  rw [getD_append_singleton]
  exact h3

/-! ### Claim C2 -/

/-- C2 (amended): every summary table of both revisions ends with a
`"Grand Total"` row whose numeric cells are the column-wise sums of the
division rows — except the `Avg No. of Days` column of main.py's
compensation table, whose grand-total entry is the mean of the per-division
averages rather than their sum (app.py's revision sums it). -/
theorem grand_total_rows_amended (df : List LedgerRow) (p : List PendingRow)
    (c : List CompRow) (r : List PrRow) :
    gtInvariant (credit_table df) ∧ gtInvariant (debit_table df) ∧
    gtInvariant (arbitration_table_app df) ∧ gtInvariant (arbitration_table_main df) ∧
    gtInvariant (current_month_table p) ∧ gtInvariant (compensation_table_app c) ∧
    gtInvariant (pr_approval_table_app r) ∧ gtInvariant (pr_approval_table_main r) ∧
    (∃ gt, (compensation_table_main c).getLast? = some gt ∧ gt.1 = "Grand Total" ∧
      (∀ i, i < 3 → gt.2.getD i 0 =
        colSum ((compensation_table_main c).dropLast.map Prod.snd) i) ∧
      gt.2.getD 3 0 = listMean ((compDivisions c).map (compAvgDays c))) := by
  refine ⟨buildTable_gtInvariant _ _ _, buildTable_gtInvariant _ _ _,
    buildTable_gtInvariant _ _ _, buildTable_gtInvariant _ _ _,
    buildTable_gtInvariant _ _ _, buildTable_gtInvariant _ _ _,
    buildTable_gtInvariant _ _ _, buildTable_gtInvariant _ _ _, ?_⟩
  refine ⟨("Grand Total",
    [colSum (((compDivisions c).map fun d => (d, compCells c d)).map Prod.snd) 0,
      colSum (((compDivisions c).map fun d => (d, compCells c d)).map Prod.snd) 1,
      colSum (((compDivisions c).map fun d => (d, compCells c d)).map Prod.snd) 2,
      listMean ((compDivisions c).map (compAvgDays c))]), ?_, rfl, ?_, rfl⟩
  · simp [compensation_table_main, List.getLast?_concat]
  · intro i hi
    have hdrop : (compensation_table_main c).dropLast =
        (compDivisions c).map fun d => (d, compCells c d) := by
      simp [compensation_table_main]
    rw [hdrop]
    rcases i with _ | _ | _ | i
    · rfl
    · rfl
    · rfl
    · exact absurd hi (by omega)

/-- C2 witness: the amended statement instantiated on concrete sources. -/
theorem grand_total_rows_amended_witness :
    gtInvariant (credit_table negLedger) ∧ gtInvariant (current_month_table []) :=
  ⟨(grand_total_rows_amended negLedger [] [] []).1,
    (grand_total_rows_amended negLedger [] [] []).2.2.2.2.1⟩

/-- A compensation source with two divisions whose per-division
`Avg No. of Days` are 10 and 30. -/
def twoDivComp : List CompRow := [⟨some "A", 5, 3, 10⟩, ⟨some "B", 7, 4, 30⟩]

/-- C2 counterexample: main.py's compensation table on `twoDivComp` puts 20
(the mean of 10 and 30) in the grand-total `Avg No. of Days` cell, while
the column-wise sum over the division rows is 40. -/
theorem grand_total_rows_counterexample :
    (compensation_table_main twoDivComp).getLast? =
      some ("Grand Total", [2, 12, 7, 20]) ∧
    colSum ((compensation_table_main twoDivComp).dropLast.map Prod.snd) 3 = 40 ∧
    (20 : ℚ) ≠ 40 := by
  have hdiv : compDivisions twoDivComp = ["A", "B"] := by decide
  have hA : compRows twoDivComp "A" = [⟨"A", 5, 3, 10⟩] := by decide
  have hB : compRows twoDivComp "B" = [⟨"B", 7, 4, 30⟩] := by decide
  have havA : compAvgDays twoDivComp "A" = 10 := by
    simp [compAvgDays, hA, listMean]
  have havB : compAvgDays twoDivComp "B" = 30 := by
    simp [compAvgDays, hB, listMean]
  have hcA : compCells twoDivComp "A" = [1, 5, 3, 10] := by
    simp [compCells, compCount, compClaimSum, compApprovedSum, hA, havA]
  have hcB : compCells twoDivComp "B" = [1, 7, 4, 30] := by
    simp [compCells, compCount, compClaimSum, compApprovedSum, hB, havB]
  refine ⟨?_, ?_, by norm_num⟩
  · simp [compensation_table_main, List.getLast?_concat, hdiv, hcA, hcB, havA, havB,
      colSum, listMean]
    norm_num
  · simp [compensation_table_main, hdiv, hcA, hcB, colSum]
    norm_num

/-! ### Claim C4 -/

/-- C4: in the current-month summary every division row's two count cells
equal the number of that division's cleaned rows whose respective source
cell is non-missing — counts of cells, not sums of their values — and the
`Total Pending Claims` cell is the sum of the two counts. -/
theorem current_month_counts (src : List PendingRow) :
    ∀ r ∈ (current_month_table src).dropLast,
      r.2.getD 0 0 = (((cleanedPending src).filter fun x =>
        x.division == r.1 && x.pendingClaimsSpares.isSome).length : ℚ) ∧
      r.2.getD 1 0 = (((cleanedPending src).filter fun x =>
        x.division == r.1 && x.pendingClaimsLabour.isSome).length : ℚ) ∧
      r.2.getD 2 0 = r.2.getD 0 0 + r.2.getD 1 0 := by
  intro r hr
  obtain ⟨d, _, rfl⟩ := mem_buildTable_dropLast hr
  refine ⟨rfl, rfl, ?_⟩
  show ((spares_count src d + labour_count src d : Nat) : ℚ) =
    (spares_count src d : ℚ) + (labour_count src d : ℚ)
  push_cast
  ring

/-- Three pending rows of division `KOL`: spares values 5 and 3 present in
two rows, labour values 7 and 2 present in two rows (so the counts are 2
and 2, not the value sums 8 and 9). -/
def samplePending : List PendingRow :=
  [⟨some "KOL", some 5, none⟩, ⟨some "KOL", none, some 7⟩, ⟨some "KOL", some 3, some 2⟩]

/-- C4 witness: on `samplePending` the `KOL` row is `[2, 2, 4]`, its first
cell is the non-missing-spares count, and its total is the sum of the two
counts. -/
theorem current_month_counts_witness :
    (("KOL", [(2 : ℚ), 2, 4]) ∈ (current_month_table samplePending).dropLast) ∧
    (2 : ℚ) = (((cleanedPending samplePending).filter fun x =>
      x.division == "KOL" && x.pendingClaimsSpares.isSome).length : ℚ) ∧
    (4 : ℚ) = 2 + 2 := by
  have hsp : spares_count samplePending "KOL" = 2 := by decide
  have hlb : labour_count samplePending "KOL" = 2 := by decide
  have hdv : pendingDivisions samplePending = ["KOL"] := by decide
  have hcells : [(spares_count samplePending "KOL" : ℚ),
      (labour_count samplePending "KOL" : ℚ),
      ((spares_count samplePending "KOL" + labour_count samplePending "KOL" : Nat) : ℚ)] =
      [(2 : ℚ), 2, 4] := by
    rw [hsp, hlb]
    norm_num
  have hmem : ("KOL", [(2 : ℚ), 2, 4]) ∈ (current_month_table samplePending).dropLast := by
    rw [current_month_table, buildTable_dropLast, hdv]
    simp
    exact ⟨by rw [hsp]; norm_num, by rw [hlb]; norm_num, by rw [hsp, hlb]; norm_num⟩
  obtain ⟨h1, _, h3⟩ := current_month_counts samplePending _ hmem
  refine ⟨hmem, ?_, ?_⟩
  · simpa using h1
  · simpa using h3

/-! ### Claim C5 -/

/-- C5: a missing or malformed source file (the `none` load outcome) makes
its routine return the all-`None` tuple instead of raising, and each
routine's stored outputs depend only on its own source, so one bad input
file leaves the other pipelines unaffected. -/
theorem pipeline_isolation (s t : Sources) :
    (s.warranty = none → process_warranty_data s.warranty = (none, none, none, none)) ∧
    (s.pendingWarranty = none →
      process_current_month_warranty s.pendingWarranty = (none, none)) ∧
    (s.compensation = none → process_compensation_claim s.compensation = (none, none)) ∧
    (s.prApproval = none → process_pr_approval s.prApproval = (none, none)) ∧
    (s.warranty = t.warranty →
      (startup s).credit_df = (startup t).credit_df ∧
      (startup s).debit_df = (startup t).debit_df ∧
      (startup s).arbitration_df = (startup t).arbitration_df ∧
      (startup s).source_df = (startup t).source_df) ∧
    (s.pendingWarranty = t.pendingWarranty →
      (startup s).current_month_df = (startup t).current_month_df ∧
      (startup s).current_month_source_df = (startup t).current_month_source_df) ∧
    (s.compensation = t.compensation →
      (startup s).compensation_df = (startup t).compensation_df ∧
      (startup s).compensation_source_df = (startup t).compensation_source_df) ∧
    (s.prApproval = t.prApproval →
      (startup s).pr_approval_df = (startup t).pr_approval_df ∧
      (startup s).pr_approval_source_df = (startup t).pr_approval_source_df) := by
  refine ⟨fun h => by rw [h]; rfl, fun h => by rw [h]; rfl, fun h => by rw [h]; rfl,
    fun h => by rw [h]; rfl, fun h => ?_, fun h => ?_, fun h => ?_, fun h => ?_⟩
  · simp only [startup]
    rw [h]
    exact ⟨rfl, rfl, rfl, rfl⟩
  · simp only [startup]
    rw [h]
    exact ⟨rfl, rfl⟩
  · simp only [startup]
    rw [h]
    exact ⟨rfl, rfl⟩
  · simp only [startup]
    rw [h]
    exact ⟨rfl, rfl⟩

/-- Sources missing the warranty ledger but carrying the other files. -/
def sourcesA : Sources := ⟨none, some samplePending, some twoDivComp, none⟩

/-- The same sources with the warranty ledger restored. -/
def sourcesB : Sources := ⟨some negLedger, some samplePending, some twoDivComp, none⟩

/-- C5 witness: with the warranty file missing the warranty routine yields
four `None`, and restoring that one file leaves the other routines' stored
tables unchanged. -/
theorem pipeline_isolation_witness :
    process_warranty_data sourcesA.warranty = (none, none, none, none) ∧
    (startup sourcesA).current_month_df = (startup sourcesB).current_month_df ∧
    (startup sourcesA).compensation_df = (startup sourcesB).compensation_df ∧
    (startup sourcesA).pr_approval_df = (startup sourcesB).pr_approval_df :=
  ⟨(pipeline_isolation sourcesA sourcesB).1 rfl,
    ((pipeline_isolation sourcesA sourcesB).2.2.2.2.2.1 rfl).1,
    ((pipeline_isolation sourcesA sourcesB).2.2.2.2.2.2.1 rfl).1,
    ((pipeline_isolation sourcesA sourcesB).2.2.2.2.2.2.2 rfl).1⟩

/-! ### Claim C6 -/

/-- C6: exporting with a specific division filter (neither `"All"` nor the
`"Grand Total"` literal) yields exactly the selected table's rows of that
division followed by its `"Grand Total"` rows, and nothing else. -/
theorem export_division_filter (wd : WarrantyData) (t : Sheet) (division exportType : String)
    (hsel : select_table_app wd exportType = some t) (hne : t.isEmpty = false)
    (hAll : division ≠ "All") (hGT : division ≠ "Grand Total") :
    export_to_excel wd division exportType =
      .ok (t.filter (fun r => r.1 == division) ++ t.filter (fun r => r.1 == "Grand Total")) ∧
    ∀ r ∈ t.filter (fun r => r.1 == division) ++ t.filter (fun r => r.1 == "Grand Total"),
      r.1 = division ∨ r.1 = "Grand Total" := by
  constructor
  · have hc : (division != "All" && division != "Grand Total") = true := by
      simp [bne_iff_ne, hAll, hGT]
    simp only [export_to_excel, hsel]
    simp [hne, filter_summary, hc]
  · intro r hr
    rcases List.mem_append.mp hr with h | h
    · exact Or.inl (by simpa using (List.mem_filter.mp h).2)
    · exact Or.inr (by simpa using (List.mem_filter.mp h).2)

/-- The scenario summary table with rows `AMT`, `CHI` and `Grand Total`. -/
def sheetC6 : Sheet := [("AMT", [1]), ("CHI", [2]), ("Grand Total", [3])]

/-- A store whose arbitration table is `sheetC6`. -/
def wdC6 : WarrantyData :=
  ⟨none, none, some sheetC6, none, none, none, none, none, none, none⟩

/-- C6 witness: filtering `sheetC6` by `"CHI"` exports exactly the `CHI`
row followed by the `Grand Total` row. -/
theorem export_division_filter_witness :
    export_to_excel wdC6 "CHI" "arbitration" = .ok [("CHI", [2]), ("Grand Total", [3])] ∧
    ∀ r ∈ sheetC6.filter (fun r => r.1 == "CHI") ++
        sheetC6.filter (fun r => r.1 == "Grand Total"),
      r.1 = "CHI" ∨ r.1 = "Grand Total" := by
  have happ := export_division_filter wdC6 sheetC6 "CHI" "arbitration" rfl rfl
    (by decide) (by decide)
  refine ⟨?_, happ.2⟩
  rw [happ.1]
  rfl

/-! ### Claim C7 -/

/-- C7: the export raises the "no data" error exactly when the selected
table is absent or empty — app.py's export for every export-type string,
main.py's for each of its six accepted types — and otherwise returns a
workbook. -/
theorem export_no_data_iff (wd : WarrantyData) (division exportType : String) :
    ((∃ msg, export_to_excel wd division exportType = .error (.noData msg)) ↔
      select_table_app wd exportType = none ∨ select_table_app wd exportType = some []) ∧
    (exportType ∈ valid_export_types →
      ((∃ msg, export_to_excel_main wd division exportType = .error (.noData msg)) ↔
        select_table_main wd exportType = none ∨
          select_table_main wd exportType = some [])) := by
  constructor
  · rcases hsel : select_table_app wd exportType with _ | t
    · simp [export_to_excel, hsel]
    · rcases t with _ | ⟨a, l⟩
      · simp [export_to_excel, hsel]
      · simp [export_to_excel, hsel]
  · intro hmem
    rcases hsel : select_table_main wd exportType with _ | t
    · simp [export_to_excel_main, hmem, hsel]
    · rcases t with _ | ⟨a, l⟩
      · simp [export_to_excel_main, hmem, hsel]
      · simp [export_to_excel_main, hmem, hsel]

/-- A store with no aggregated tables at all. -/
def wdEmpty : WarrantyData :=
  ⟨none, none, none, none, none, none, none, none, none, none⟩

/-- C7 witness: the no-data equivalence instantiated for the `credit`
export on an empty store, for both revisions. -/
theorem export_no_data_iff_witness :
    ((∃ msg, export_to_excel wdEmpty "All" "credit" = .error (.noData msg)) ↔
      select_table_app wdEmpty "credit" = none ∨ select_table_app wdEmpty "credit" = some []) ∧
    ((∃ msg, export_to_excel_main wdEmpty "All" "credit" = .error (.noData msg)) ↔
      select_table_main wdEmpty "credit" = none ∨
        select_table_main wdEmpty "credit" = some []) :=
  ⟨(export_no_data_iff wdEmpty "All" "credit").1,
    (export_no_data_iff wdEmpty "All" "credit").2 (by decide)⟩

/-! ### Claim C9 -/

/-- C9: exporting with the literal division filter `"Grand Total"` behaves
exactly like `"All"` — the Summary sheet is the whole unfiltered table —
in both revisions. -/
theorem export_grand_total_as_all (wd : WarrantyData) (exportType : String) (t : Sheet) :
    export_to_excel wd "Grand Total" exportType = export_to_excel wd "All" exportType ∧
    export_to_excel_main wd "Grand Total" exportType =
      export_to_excel_main wd "All" exportType ∧
    filter_summary t "Grand Total" = t ∧ filter_summary t "All" = t := by
  have h1 : ∀ u : Sheet, filter_summary u "Grand Total" = u := fun u => by
    simp [filter_summary]
  have h2 : ∀ u : Sheet, filter_summary u "All" = u := fun u => by
    simp [filter_summary]
  refine ⟨?_, ?_, h1 t, h2 t⟩
  · simp only [export_to_excel]
    rcases select_table_app wd exportType with _ | u
    · rfl
    · simp [h1, h2]
  · simp only [export_to_excel_main]
    rcases valid_export_types.contains exportType with _ | _
    · rfl
    · simp only [Bool.not_true, Bool.false_eq_true, if_false]
      rcases select_table_main wd exportType with _ | u
      · rfl
      · simp [h1, h2]

/-! ### Claim C10 -/

/-- C10: in app.py's export, any export-type string outside the five named
ones is not rejected: the arbitration table is selected, the only possible
error is the "no data" one, and it occurs exactly when the arbitration
table is absent or empty. -/
theorem export_unknown_type_arbitration (wd : WarrantyData) (division exportType : String)
    (h : exportType ∉ ["currentmonth", "compensation", "pr_approval", "credit", "debit"]) :
    select_table_app wd exportType = wd.arbitration_df ∧
    ((∃ msg, export_to_excel wd division exportType = .error (.noData msg)) ↔
      wd.arbitration_df = none ∨ wd.arbitration_df = some []) ∧
    ∀ e, export_to_excel wd division exportType = .error e → ∃ msg, e = .noData msg := by
  have hne : exportType ≠ "currentmonth" ∧ exportType ≠ "compensation" ∧
      exportType ≠ "pr_approval" ∧ exportType ≠ "credit" ∧ exportType ≠ "debit" := by
    refine ⟨?_, ?_, ?_, ?_, ?_⟩ <;> (rintro rfl; exact h (by simp))
  have b1 : (exportType == "currentmonth") = false := beq_eq_false_iff_ne.mpr hne.1
  have b2 : (exportType == "compensation") = false := beq_eq_false_iff_ne.mpr hne.2.1
  have b3 : (exportType == "pr_approval") = false := beq_eq_false_iff_ne.mpr hne.2.2.1
  have b4 : (exportType == "credit") = false := beq_eq_false_iff_ne.mpr hne.2.2.2.1
  have b5 : (exportType == "debit") = false := beq_eq_false_iff_ne.mpr hne.2.2.2.2
  have hsel : select_table_app wd exportType = wd.arbitration_df := by
    simp [select_table_app, b1, b2, b3, b4, b5]
  refine ⟨hsel, ?_, ?_⟩
  · rcases harb : wd.arbitration_df with _ | t
    · simp [export_to_excel, hsel, harb]
    · rcases t with _ | ⟨a, l⟩
      · simp [export_to_excel, hsel, harb]
      · simp [export_to_excel, hsel, harb]
  · intro e he
    rcases hsel2 : select_table_app wd exportType with _ | t
    · simp only [export_to_excel, hsel2] at he
      simp at he
      exact ⟨exportType, he.symm⟩
    · rcases t with _ | ⟨a, l⟩
      · simp only [export_to_excel, hsel2] at he
        simp at he
        exact ⟨exportType, he.symm⟩
      · simp only [export_to_excel, hsel2] at he
        simp at he

/-- C10 witness: the unknown type `"bogus"` selects the arbitration table
of `wdC6` and exports it without an invalid-type rejection. -/
theorem export_unknown_type_arbitration_witness :
    select_table_app wdC6 "bogus" = wdC6.arbitration_df ∧
    ((∃ msg, export_to_excel wdC6 "All" "bogus" = .error (.noData msg)) ↔
      wdC6.arbitration_df = none ∨ wdC6.arbitration_df = some []) ∧
    (∀ e, export_to_excel wdC6 "All" "bogus" = .error e → ∃ msg, e = .noData msg) :=
  export_unknown_type_arbitration wdC6 "All" "bogus" (by decide)

/-! ### Claim C8 -/

/-- A one-row compensation source of division `AMT`. -/
def oneCompClaim : List CompRow := [⟨some "AMT", 100, 80, 5⟩]

/-- C8: main.py's compensation detail sheet consists of exactly the
retained source columns — no turn-around-time column is derived or added
for any detail row (and app.py's export produces no detail sheet at all,
despite its header comment advertising a TAT column). -/
theorem compensation_export_no_tat :
    (export_compensation_detail (cleanedComp oneCompClaim) "All").1 =
      compensation_detail_columns ∧
    "TAT" ∉ compensation_detail_columns ∧
    (∀ c ∈ compensation_detail_columns,
      c ≠ "TAT" ∧ c ≠ "Turn Around Time" ∧ c ≠ "Turnaround Time") ∧
    (export_compensation_detail (cleanedComp oneCompClaim) "All").2 =
      cleanedComp oneCompClaim := by
  refine ⟨rfl, by decide, by decide, ?_⟩
  simp [export_compensation_detail]
